import Mathlib

/-!
Shallow embedding of the `accounts` module of the helium-api-rs client
library (`src/accounts.rs`), together with a spec-derived model of the
`Client` collaborator (which lives outside the examined sources).

The Rust module is a thin data-fetching layer: every accessor builds an
endpoint path and optional query parameters and delegates to the Client.
The embedding mirrors that structure:

* `Json` is a standard JSON value type; HTTP responses carry a `Json` body.
* `Client` is a record of the two transport behaviours the module uses:
  `httpGet` (raw single-resource GET outcome) and `fetch_stream`
  (the streamed sub-resource fetch, returned to callers unchanged).
* `Client.fetch` is modelled from the spec (section 4.1 / 7): it maps a
  transport failure to `NetworkError`, a missing resource to `NotFound`,
  another non-success response to `ApiError`, and otherwise deserializes
  the JSON body (a shape mismatch yields `DecodeError`).
* `Account.deserialize` follows the serde derive on the Rust struct:
  all fields are required except `speculative_nonce` and
  `speculative_sec_nonce`, which carry `#[serde(default)]`.
* `chrono`'s `DateTime<Utc>` and `Duration` are represented as integer
  timestamps; the implicit clock `Utc::now()` becomes an explicit `now`
  argument, and `format!("\x7b:?\x7d", t)` on a timestamp is modelled by
  `formatDebug` (the claims depend only on which values are rendered,
  not on chrono's concrete rendering syntax).
-/

namespace Helium

/-- JSON values, the bodies exchanged with the REST API. -/
inductive Json where
  | null : Json
  | bool (b : Bool) : Json
  | num (n : Int) : Json
  | str (s : String) : Json
  | arr (elems : List Json) : Json
  | obj (fields : List (String × Json)) : Json

/-- Error kinds of the library (spec section 7): transport failure,
response-shape mismatch, structured non-success response, and the
missing-resource case of the latter. -/
inductive Error where
  | networkError (msg : String) : Error
  | decodeError (msg : String) : Error
  | apiError (msg : String) : Error
  | notFound : Error
deriving DecidableEq

/-- Outcome of one raw HTTP GET, before the Client maps it to `Error`
kinds: transport failure, missing resource, other non-success status,
or a successful JSON body. -/
inductive HttpOutcome where
  | transportFail (msg : String) : HttpOutcome
  | missing : HttpOutcome
  | apiFail (msg : String) : HttpOutcome
  | success (body : Json) : HttpOutcome

/-- Modelled from the spec: the `Client` collaborator is not under the
examined sources; it is represented by its two behaviours as seen from
the accounts module — the raw GET outcome used by `fetch`, and the
streaming fetch `fetch_stream`, whose lazy paginated sequence of decoded
items is abstracted as the list of per-item results the accessor hands
back to the caller unchanged. -/
structure Client where
  httpGet : String → List (List String) → HttpOutcome
  fetch_stream : String → List (List String) → List (Except Error Json)

/-- Modelled from the spec (section 4.1): `Client::fetch` performs one
GET and either maps the failure to the corresponding `Error` kind
(transport failure to NetworkError, missing resource to NotFound, other
non-success to ApiError) or deserializes the JSON body into the target
type via the supplied decoder. -/
def Client.fetch {α : Type} (c : Client) (decode : Json → Except Error α)
    (path : String) (query : List (List String)) : Except Error α :=
  match c.httpGet path query with
  | .transportFail m => .error (.networkError m)
  | .missing => .error .notFound
  | .apiFail m => .error (.apiError m)
  | .success body => decode body

/-- Modelled from the spec: the crate's `NO_QUERY` constant (not under
the examined sources), an empty query-parameter list. -/
def NO_QUERY : List (List String) := []

/-- Decode a required u64 field from an optional JSON field value:
absent or non-numeric or out-of-range values are a decode error. -/
def decodeU64 : Option Json → Except Error Nat
  | some (.num n) =>
      if 0 ≤ n ∧ n < 2 ^ 64 then .ok n.toNat
      else .error (.decodeError "u64 out of range")
  | some _ => .error (.decodeError "expected u64")
  | none => .error (.decodeError "missing field")

/-- Decode a u64 field carrying serde's `#[serde(default)]`: an absent
field yields the u64 default 0; a present field must decode as u64. -/
def decodeU64orDefault : Option Json → Except Error Nat
  | none => .ok 0
  | some j => decodeU64 (some j)

/-- Decode a required string field from an optional JSON field value. -/
def decodeStringField : Option Json → Except Error String
  | some (.str s) => .ok s
  | some _ => .error (.decodeError "expected string")
  | none => .error (.decodeError "missing field")

/-- An Hnt amount. Modelled from the spec (section 3): the main-token
balance is a non-negative integer amount in on-wire units. -/
abbrev Hnt := Nat

/-- An Hst amount. Modelled from the spec (section 3): the
security-token balance is a non-negative integer amount in on-wire
units. -/
abbrev Hst := Nat

/-- Modelled from the spec: `Hnt::deserialize`, the custom
numeric-amount decoder used for the `balance` field (its Rust source is
outside the examined files); it accepts the on-wire non-negative
integer amount. -/
def Hnt.deserialize (j : Option Json) : Except Error Hnt := decodeU64 j

/-- Modelled from the spec: `Hst::deserialize`, the custom
numeric-amount decoder used for the `sec_balance` field (its Rust
source is outside the examined files). -/
def Hst.deserialize (j : Option Json) : Except Error Hst := decodeU64 j

/-- Represents a wallet on the blockchain (the `Account` struct). -/
structure Account where
  address : String
  balance : Hnt
  dc_balance : Nat
  sec_balance : Hst
  nonce : Nat
  speculative_nonce : Nat
  speculative_sec_nonce : Nat
deriving DecidableEq

/-- Deserialization of `Account` from a JSON object, following the
serde derive on the Rust struct: every field is required except
`speculative_nonce` and `speculative_sec_nonce`, which carry
`#[serde(default)]` and default to 0 when absent; `balance` and
`sec_balance` go through the custom `Hnt`/`Hst` decoders. -/
def Account.deserialize : Json → Except Error Account
  | .obj fields => do
      let address ← decodeStringField (fields.lookup "address")
      let balance ← Hnt.deserialize (fields.lookup "balance")
      let dc_balance ← decodeU64 (fields.lookup "dc_balance")
      let sec_balance ← Hst.deserialize (fields.lookup "sec_balance")
      let nonce ← decodeU64 (fields.lookup "nonce")
      let speculative_nonce ← decodeU64orDefault (fields.lookup "speculative_nonce")
      let speculative_sec_nonce ← decodeU64orDefault (fields.lookup "speculative_sec_nonce")
      .ok ⟨address, balance, dc_balance, sec_balance, nonce,
           speculative_nonce, speculative_sec_nonce⟩
  | _ => .error (.decodeError "expected object")

/-- Deserialization of a `Vec<Account>` from a JSON array. -/
def Account.deserializeList : Json → Except Error (List Account)
  | .arr elems => elems.mapM Account.deserialize
  | _ => .error (.decodeError "expected array")

/-- `chrono::DateTime<Utc>`, represented as an integer timestamp. -/
abbrev DateTime := Int

/-- `chrono::Duration` (`ChronoDuration` in the Rust source),
represented as an integer number of the same time units. -/
abbrev ChronoDuration := Int

/-- Models Rust's `format!("\x7b:?\x7d", t)` on a `DateTime<Utc>`: the
Debug rendering of the timestamp. The embedding renders the integer
timestamp decimally; the claims depend only on which timestamp values
are rendered, never on chrono's concrete rendering syntax. -/
def formatDebug (t : DateTime) : String := toString t

namespace accounts

/-- `accounts::all`: get all known accounts (streamed). -/
def all (client : Client) : List (Except Error Json) :=
  client.fetch_stream "/accounts" NO_QUERY

/-- `accounts::get`: get a specific account by its address. -/
def get (client : Client) (address : String) : Except Error Account :=
  client.fetch Account.deserialize ("/accounts/" ++ address) NO_QUERY

/-- `accounts::hotspots`: all hotspots owned by a given account
(streamed; the `Hotspot` item type lives outside the examined sources,
so items stay as raw per-item results). -/
def hotspots (client : Client) (address : String) : List (Except Error Json) :=
  client.fetch_stream ("/accounts/" ++ address ++ "/hotspots") NO_QUERY

/-- `accounts::ouis`: all OUIs owned by a given account (streamed). -/
def ouis (client : Client) (address : String) : List (Except Error Json) :=
  client.fetch_stream ("/accounts/" ++ address ++ "/ouis") NO_QUERY

/-- `accounts::validators`: all validators owned by a given account
(streamed). -/
def validators (client : Client) (address : String) : List (Except Error Json) :=
  client.fetch_stream ("/accounts/" ++ address ++ "/validators") NO_QUERY

/-- `accounts::transactions`: all the transactions (activity) for the
account (streamed). -/
def transactions (client : Client) (address : String) : List (Except Error Json) :=
  client.fetch_stream ("/accounts/" ++ address ++ "/activity") NO_QUERY

/-- `accounts::get_rewards_last`: rewards of the last `duration`. The
Rust code reads the clock (`Utc::now()`); the embedding passes that
clock reading as the explicit `now` argument. -/
def get_rewards_last (client : Client) (now : DateTime) (address : String)
    (duration : ChronoDuration) : List (Except Error Json) :=
  let max_time : DateTime := now
  let min_time := max_time - duration
  let query := [["max_time", formatDebug max_time],
                ["min_time", formatDebug min_time]]
  client.fetch_stream ("/accounts/" ++ address ++ "/rewards") query

/-- `accounts::get_rewards_since`: rewards since `min_time`, with the
clock reading `Utc::now()` passed as the explicit `now` argument. -/
def get_rewards_since (client : Client) (now : DateTime) (address : String)
    (min_time : DateTime) : List (Except Error Json) :=
  let max_time : DateTime := now
  let query := [["max_time", formatDebug max_time],
                ["min_time", formatDebug min_time]]
  client.fetch_stream ("/accounts/" ++ address ++ "/rewards") query

/-- `accounts::get_rewards_between`: rewards between `min_time` and
`max_time`. -/
def get_rewards_between (client : Client) (address : String)
    (min_time : DateTime) (max_time : DateTime) : List (Except Error Json) :=
  let query := [["max_time", formatDebug max_time],
                ["min_time", formatDebug min_time]]
  client.fetch_stream ("/accounts/" ++ address ++ "/rewards") query

/-- `accounts::richest`: up to `limit` accounts sorted by descending
balance; the Rust code interpolates `limit.unwrap_or(1000)` into the
path. -/
def richest (client : Client) (limit : Option Nat) : Except Error (List Account) :=
  client.fetch Account.deserializeList
    ("/accounts/rich?limit=" ++ toString (limit.getD 1000)) NO_QUERY

end accounts

/-- A client whose transport always fails, echoing the requested path
in the failure message; used to observe which path an accessor
requests. -/
def probeClient : Client where
  httpGet := fun path _ => .transportFail path
  fetch_stream := fun path _ => [.error (.networkError path)]

end Helium

namespace Helium

open accounts

/-- Extract the `a` from `x >>= f = .ok b` in the `Except` monad. -/
theorem exceptBind_eq_ok {α β : Type} {x : Except Error α}
    {f : α → Except Error β} {b : β} (h : x >>= f = .ok b) :
    ∃ a, x = .ok a ∧ f a = .ok b := by
  cases x with
  | error e =>
      exact absurd h (by simp [Bind.bind, Except.bind])
  | ok a => exact ⟨a, rfl, h⟩

/-- C1 counterexample: calling `richest` with `limit = Some 2000`
requests the path `/accounts/rich?limit=2000`, an effective limit of
2000 which exceeds the claimed hard cap of 1000 — the code applies the
1000 default only when `limit` is `None` and never caps a supplied
value. -/
theorem richest_some_2000_uncapped :
    richest probeClient (some 2000)
      = .error (.networkError "/accounts/rich?limit=2000")
    ∧ ¬ (2000 ≤ 1000) := by
  refine ⟨rfl, by decide⟩

/-- C1 (amended): when `limit` is `None` the request uses
`limit=1000`; when `limit` is `Some n` the request uses `limit=n`
unmodified, with no client-side cap — `richest` fetches
`/accounts/rich?limit=` followed by the decimal rendering of the
effective limit `limit.unwrap_or(1000)`, in a single non-streamed
call. -/
theorem richest_limit_passthrough (client : Client) (n : Nat) :
    richest client (some n)
      = client.fetch Account.deserializeList
          ("/accounts/rich?limit=" ++ toString n) NO_QUERY
    ∧ richest client none
      = client.fetch Account.deserializeList
          "/accounts/rich?limit=1000" NO_QUERY :=
  ⟨rfl, rfl⟩

/-- C2: at the same clock instant `now`, `get_rewards_last` issues
exactly the request of `get_rewards_between` at bounds
`(now - duration, now)`, and `get_rewards_since` issues exactly the
request of `get_rewards_between` at bounds `(min_time, now)`: the
rewardsLast and rewardsSince forms are equivalent to the between
form (same endpoint path, same min_time/max_time query parameters). -/
theorem rewards_last_since_equiv_between (client : Client) (now : DateTime)
    (address : String) (duration : ChronoDuration) (min_time : DateTime) :
    get_rewards_last client now address duration
      = get_rewards_between client address (now - duration) now
    ∧ get_rewards_since client now address min_time
      = get_rewards_between client address min_time now :=
  ⟨rfl, rfl⟩

/-- C3: for every JSON object that deserializes to an `Account`, if
the `speculative_nonce` field is absent the decoded account has
`speculative_nonce = 0`, and if the `speculative_sec_nonce` field is
absent the decoded account has `speculative_sec_nonce = 0`. -/
theorem account_speculative_defaults (fields : List (String × Json))
    (a : Account) (hok : Account.deserialize (.obj fields) = .ok a) :
    (fields.lookup "speculative_nonce" = none → a.speculative_nonce = 0)
    ∧ (fields.lookup "speculative_sec_nonce" = none →
         a.speculative_sec_nonce = 0) := by
  simp only [Account.deserialize] at hok
  obtain ⟨addr, h1, hok⟩ := exceptBind_eq_ok hok
  obtain ⟨bal, h2, hok⟩ := exceptBind_eq_ok hok
  obtain ⟨dc, h3, hok⟩ := exceptBind_eq_ok hok
  obtain ⟨sec, h4, hok⟩ := exceptBind_eq_ok hok
  obtain ⟨non, h5, hok⟩ := exceptBind_eq_ok hok
  obtain ⟨sn, h6, hok⟩ := exceptBind_eq_ok hok
  obtain ⟨ssn, h7, hok⟩ := exceptBind_eq_ok hok
  cases hok
  constructor
  · intro hnone
    rw [hnone] at h6
    simpa [decodeU64orDefault] using h6.symm
  · intro hnone
    rw [hnone] at h7
    simpa [decodeU64orDefault] using h7.symm

/-- The fields of a JSON account object carrying no speculative nonce
fields. -/
def fieldsNoSpeculative : List (String × Json) :=
  [("address", .str "a"), ("balance", .num 5),
   ("dc_balance", .num 6), ("sec_balance", .num 7),
   ("nonce", .num 8)]

/-- The account decoded from `Json.obj fieldsNoSpeculative`. -/
def accountNoSpeculative : Account := ⟨"a", 5, 6, 7, 8, 0, 0⟩

/-- C3 witness: a concrete object lacking both speculative fields
decodes to an account whose speculative nonces are 0. -/
theorem account_speculative_defaults_witness :
    accountNoSpeculative.speculative_nonce = 0
    ∧ accountNoSpeculative.speculative_sec_nonce = 0 :=
  ⟨(account_speculative_defaults fieldsNoSpeculative accountNoSpeculative
      rfl).1 rfl,
   (account_speculative_defaults fieldsNoSpeculative accountNoSpeculative
      rfl).2 rfl⟩

end Helium

namespace Helium

open accounts

/-- A client whose every GET reports a missing resource. -/
def missingClient : Client where
  httpGet := fun _ _ => .missing
  fetch_stream := fun _ _ => []

/-- C4: for every address unknown to the service — i.e. whenever the
raw GET of `/accounts/` ++ address reports a missing resource — `get`
fails with the NotFound error kind, not DecodeError and not
NetworkError (the Client maps a missing-resource response to
NotFound). -/
theorem get_unknown_address_notFound (client : Client) (address : String)
    (hmissing : client.httpGet ("/accounts/" ++ address) NO_QUERY
                  = .missing) :
    get client address = .error .notFound
    ∧ ∀ m, get client address ≠ .error (.decodeError m)
    ∧ get client address ≠ .error (.networkError m) := by
  have hget : get client address = .error .notFound := by
    unfold accounts.get Client.fetch
    rw [hmissing]
  exact ⟨hget, fun m => ⟨by simp [hget], by simp [hget]⟩⟩

/-- C4 witness: against a client whose transport reports the resource
missing, `get` at a concrete address returns NotFound. -/
theorem get_unknown_address_notFound_witness :
    get missingClient "unknown13WRN" = .error .notFound :=
  (get_unknown_address_notFound missingClient "unknown13WRN" rfl).1

/-- C5: account accessors perform no local recovery. Whenever the
Client's `fetch` returns an error, `get` and `richest` return exactly
that error, unchanged; and each streaming accessor returns the
Client's `fetch_stream` result itself, so stream errors also reach the
caller unchanged — no retry, no substitution, no remapping of error
kind. -/
theorem accessors_propagate_client_errors (client : Client)
    (address : String) (limit : Option Nat) (min_time max_time : DateTime)
    (e : Error) :
    (client.fetch Account.deserialize ("/accounts/" ++ address) NO_QUERY
       = .error e → get client address = .error e)
    ∧ (client.fetch Account.deserializeList
         ("/accounts/rich?limit=" ++ toString (limit.getD 1000)) NO_QUERY
       = .error e → richest client limit = .error e)
    ∧ all client = client.fetch_stream "/accounts" NO_QUERY
    ∧ hotspots client address
        = client.fetch_stream ("/accounts/" ++ address ++ "/hotspots") NO_QUERY
    ∧ ouis client address
        = client.fetch_stream ("/accounts/" ++ address ++ "/ouis") NO_QUERY
    ∧ validators client address
        = client.fetch_stream ("/accounts/" ++ address ++ "/validators") NO_QUERY
    ∧ transactions client address
        = client.fetch_stream ("/accounts/" ++ address ++ "/activity") NO_QUERY
    ∧ get_rewards_between client address min_time max_time
        = client.fetch_stream ("/accounts/" ++ address ++ "/rewards")
            [["max_time", formatDebug max_time],
             ["min_time", formatDebug min_time]] :=
  ⟨fun h => h, fun h => h, rfl, rfl, rfl, rfl, rfl, rfl⟩

/-- C5 witness: against a client whose transport fails, `get` returns
the client's error verbatim. -/
theorem accessors_propagate_client_errors_witness :
    get probeClient "a" = .error (.networkError "/accounts/a") :=
  (accessors_propagate_client_errors probeClient "a" none 0 0
      (.networkError "/accounts/a")).1 rfl

/-- C6: `get_rewards_last` computes `max_time = now()` and
`min_time = max_time - duration`, and `get_rewards_since` computes
`max_time = now()`; each passes both bounds as formatted
min_time/max_time query parameters on the
`/accounts/\x7baddress\x7d/rewards` request. -/
theorem rewards_last_since_time_bounds (client : Client) (now : DateTime)
    (address : String) (duration : ChronoDuration) (min_time : DateTime) :
    get_rewards_last client now address duration
      = client.fetch_stream ("/accounts/" ++ address ++ "/rewards")
          [["max_time", formatDebug now],
           ["min_time", formatDebug (now - duration)]]
    ∧ get_rewards_since client now address min_time
      = client.fetch_stream ("/accounts/" ++ address ++ "/rewards")
          [["max_time", formatDebug now],
           ["min_time", formatDebug min_time]] :=
  ⟨rfl, rfl⟩

/-- C7: `transactions` requests exactly the path
`/accounts/\x7baddress\x7d/activity` with the empty query `NO_QUERY`,
handing back the Client's lazy paginated stream unchanged. -/
theorem transactions_requests_activity (client : Client) (address : String) :
    transactions client address
      = client.fetch_stream ("/accounts/" ++ address ++ "/activity") NO_QUERY
    ∧ NO_QUERY = ([] : List (List String)) :=
  ⟨rfl, rfl⟩

/-- C8: if the body the server serves at `/accounts/` ++ address
decodes to an account whose `address` field equals the queried address
(the server returns the account for the requested path), then a
successful `get` yields an account `a` with `a.address` equal to the
queried address. -/
theorem get_returns_queried_address (client : Client) (address : String)
    (a : Account)
    (hserver : ∀ body, client.httpGet ("/accounts/" ++ address) NO_QUERY
                  = .success body →
                ∀ acc, Account.deserialize body = .ok acc →
                  acc.address = address)
    (hok : get client address = .ok a) :
    a.address = address := by
  unfold accounts.get Client.fetch at hok
  cases houtcome : client.httpGet ("/accounts/" ++ address) NO_QUERY with
  | transportFail m => rw [houtcome] at hok; simp at hok
  | missing => rw [houtcome] at hok; simp at hok
  | apiFail m => rw [houtcome] at hok; simp at hok
  | success body =>
      rw [houtcome] at hok
      exact hserver body houtcome a hok

/-- A client serving, for every path, the account object
`fieldsNoSpeculative` (whose address field is "a"). -/
def constAccountClient : Client where
  httpGet := fun _ _ => .success (.obj fieldsNoSpeculative)
  fetch_stream := fun _ _ => []

/-- C8 witness: against a client serving a concrete account body with
address "a", `get` at address "a" succeeds and the returned account's
address is the queried "a". -/
theorem get_returns_queried_address_witness :
    accountNoSpeculative.address = "a" :=
  get_returns_queried_address constAccountClient "a" accountNoSpeculative
    (by
      intro body hbody acc hacc
      cases hbody
      rw [show Account.deserialize (.obj fieldsNoSpeculative)
            = .ok accountNoSpeculative from rfl] at hacc
      cases hacc
      rfl)
    rfl

/-- C9: `get`, `hotspots`, `ouis` and `validators` request exactly the
path formed by concatenating `/accounts/` with the address string
unmodified — no percent-encoding, escaping or validation — so an
address containing a slash changes which endpoint is requested: the
final conjuncts show `get` at the address `a/hotspots` asking the
transport for `/accounts/a/hotspots`, the very path the `hotspots`
accessor of address `a` requests. -/
theorem address_interpolated_unescaped (client : Client) (address : String) :
    get client address
      = client.fetch Account.deserialize ("/accounts/" ++ address) NO_QUERY
    ∧ hotspots client address
        = client.fetch_stream ("/accounts/" ++ address ++ "/hotspots") NO_QUERY
    ∧ ouis client address
        = client.fetch_stream ("/accounts/" ++ address ++ "/ouis") NO_QUERY
    ∧ validators client address
        = client.fetch_stream ("/accounts/" ++ address ++ "/validators") NO_QUERY
    ∧ get probeClient "a/hotspots"
        = .error (.networkError "/accounts/a/hotspots")
    ∧ hotspots probeClient "a"
        = [.error (.networkError "/accounts/a/hotspots")] :=
  ⟨rfl, rfl, rfl, rfl, rfl, rfl⟩

/-- C10: `get_rewards_between` attaches exactly two query parameters
and no others, in the order max_time then min_time, each value the
rendering of the corresponding `DateTime<Utc>`; `get_rewards_last` and
`get_rewards_since` produce the same two-parameter query shape. -/
theorem rewards_query_two_params_max_then_min (client : Client)
    (address : String) (min_time max_time now : DateTime)
    (duration : ChronoDuration) :
    get_rewards_between client address min_time max_time
      = client.fetch_stream ("/accounts/" ++ address ++ "/rewards")
          [["max_time", formatDebug max_time],
           ["min_time", formatDebug min_time]]
    ∧ get_rewards_last client now address duration
        = client.fetch_stream ("/accounts/" ++ address ++ "/rewards")
            [["max_time", formatDebug now],
             ["min_time", formatDebug (now - duration)]]
    ∧ get_rewards_since client now address min_time
        = client.fetch_stream ("/accounts/" ++ address ++ "/rewards")
            [["max_time", formatDebug now],
             ["min_time", formatDebug min_time]]
    ∧ [["max_time", formatDebug max_time],
       ["min_time", formatDebug min_time]].length = 2 :=
  ⟨rfl, rfl, rfl, rfl⟩

end Helium
